import Mathlib

/-!
Verification of the tenant-scoped Zeus credential CRUD of the `campanhas`
repository: a shallow embedding of `src/backend/src/services/zeusService.ts`
(service and controller layers, the zod `credentialsSchema`) and of the
frontend `settingsSchema` port bound from
`src/frontend/src/pages/SettingsPage.tsx`, together with theorems about
redaction, password preservation, upsert uniqueness, delete idempotence,
tenant isolation and port validation.

The Prisma table `credentialsZeus` is modelled as a list of rows; the Prisma
primitives used by the code (`findUnique`, `upsert`, `deleteMany`, all keyed
on the unique `tenantId` column) are modelled as list operations.
-/

namespace Campanhas

/-- A row of the `credentialsZeus` table: the columns written by the code. -/
structure CredentialsZeus where
  tenantId : String
  host : String
  port : Int
  databaseName : String
  username : String
  password : String
deriving DecidableEq, Repr

/-- The database state: the rows of the `credentialsZeus` table. -/
abbrev DB := List CredentialsZeus

/-- The `where: { tenantId }` filter used by every Prisma call in the service. -/
def keyIs (t : String) (r : CredentialsZeus) : Bool :=
  r.tenantId == t

/-- `prisma.credentialsZeus.findUnique({ where: { tenantId } })`. -/
def findUnique (db : DB) (t : String) : Option CredentialsZeus :=
  db.find? (keyIs t)

/-- `prisma.credentialsZeus.deleteMany({ where: { tenantId } })`: the surviving rows. -/
def deleteMany (db : DB) (t : String) : DB :=
  db.filter (fun r => !(keyIs t r))

/-- The `upsertData` object built by `ZeusService.upsertCredentials`:
`host`, `port`, `databaseName`, `username`, `tenantId` always present,
`password` present only when a non-empty new password was supplied. -/
structure UpsertData where
  host : String
  port : Int
  databaseName : String
  username : String
  tenantId : String
  password : Option String
deriving DecidableEq, Repr

/-- Applying the Prisma `update` clause to an existing row: every listed
field is overwritten; `password` is overwritten only when present in the
update object, otherwise the stored value is kept. -/
def applyUpdate (u : UpsertData) (row : CredentialsZeus) : CredentialsZeus :=
  { tenantId := u.tenantId, host := u.host, port := u.port,
    databaseName := u.databaseName, username := u.username,
    password := u.password.getD row.password }

/-- The row built by the Prisma `create` clause: `{ ...upsertData, password: pw }`. -/
def createRow (u : UpsertData) (pw : String) : CredentialsZeus :=
  { tenantId := u.tenantId, host := u.host, port := u.port,
    databaseName := u.databaseName, username := u.username, password := pw }

/-- Rewriting in place every row matching the unique key, as the relational
`update where tenantId` does. -/
def updateRow (t : String) (f : CredentialsZeus → CredentialsZeus) (db : DB) : DB :=
  db.map (fun r => if keyIs t r then f r else r)

/-- `prisma.credentialsZeus.upsert({ where: { tenantId }, update, create })`:
returns the resulting row and the new table state. -/
def prismaUpsert (db : DB) (t : String) (u : UpsertData) (createPw : String) :
    CredentialsZeus × DB :=
  match findUnique db t with
  | some row => (applyUpdate u row, updateRow t (applyUpdate u) db)
  | none =>
      let row := createRow u createPw
      (row, db ++ [row])

/-- The `ZeusCredentialsInput` interface: `password` is optional. -/
structure ZeusCredentialsInput where
  host : String
  port : Int
  databaseName : String
  username : String
  password : Option String
deriving DecidableEq, Repr

/-- The guard `data.password && data.password.length > 0`: an absent or
empty password is falsy in JavaScript. -/
def passwordProvided (data : ZeusCredentialsInput) : Bool :=
  match data.password with
  | some s => decide (0 < s.length)
  | none => false

/-- The `upsertData` object of `ZeusService.upsertCredentials`. -/
def buildUpsertData (tenantId : String) (data : ZeusCredentialsInput) : UpsertData :=
  { host := data.host, port := data.port, databaseName := data.databaseName,
    username := data.username, tenantId := tenantId,
    password := if passwordProvided data then data.password else none }

/-- The credential object returned to the frontend by reads: every stored
field except the raw `password`, plus the derived `hasPassword`. -/
structure RedactedCredentials where
  tenantId : String
  host : String
  port : Int
  databaseName : String
  username : String
  hasPassword : Bool
deriving DecidableEq, Repr

/-- The read-side redaction rule: drop `password`, add
`hasPassword: !!password && password.length > 0`. -/
def redact (c : CredentialsZeus) : RedactedCredentials :=
  { tenantId := c.tenantId, host := c.host, port := c.port,
    databaseName := c.databaseName, username := c.username,
    hasPassword := decide (0 < c.password.length) }

namespace ZeusService

/-- `ZeusService.getCredentials`: find the tenant row and redact it, or `null`. -/
def getCredentials (db : DB) (tenantId : String) : Option RedactedCredentials :=
  (findUnique db tenantId).map redact

/-- `ZeusService.upsertCredentials`: build `upsertData` and call the Prisma
upsert; on create the password defaults to the empty string
(`password: data.password || ''`). -/
def upsertCredentials (db : DB) (tenantId : String) (data : ZeusCredentialsInput) :
    CredentialsZeus × DB :=
  prismaUpsert db tenantId (buildUpsertData tenantId data) (data.password.getD "")

/-- `ZeusService.deleteCredentials`: `deleteMany` so that a missing row is no error. -/
def deleteCredentials (db : DB) (tenantId : String) : DB :=
  deleteMany db tenantId

end ZeusService

/-- The `port` value of a request body: a JSON number or a JSON string, the
two shapes the zod union accepts. -/
inductive PortInput
  | num (n : Int)
  | str (s : String)
deriving DecidableEq, Repr

/-- The maximal leading run of decimal digits, as consumed by `parseInt`. -/
def takeDigits : List Char → List Char
  | [] => []
  | c :: cs => if c.isDigit then c :: takeDigits cs else []

/-- Value of a digit string. -/
def digitsToNat (ds : List Char) : Nat :=
  ds.foldl (fun acc c => acc * 10 + (c.toNat - 48)) 0

/-- Whitespace skipped by `parseInt`. -/
def isJsSpace (c : Char) : Bool :=
  c == ' ' || c == '\t' || c == '\n' || c == '\r'

/-- JavaScript `parseInt(s, 10)`: skip leading whitespace, optional sign,
then the maximal digit prefix; `NaN` (here `none`) when no digit follows. -/
def parseIntDec (s : String) : Option Int :=
  match s.toList.dropWhile isJsSpace with
  | '-' :: rest =>
      let ds := takeDigits rest
      if ds.isEmpty then none else some (-(digitsToNat ds : Int))
  | '+' :: rest =>
      let ds := takeDigits rest
      if ds.isEmpty then none else some ((digitsToNat ds : Int))
  | cs =>
      let ds := takeDigits cs
      if ds.isEmpty then none else some ((digitsToNat ds : Int))

/-- Outcome of the zod `port` union: a parsed value, a collected validation
issue, or an exception thrown out of the string branch transform (zod does
not catch exceptions raised inside a transform). -/
inductive PortResult
  | ok (n : Int)
  | issue (msg : String)
  | thrown (msg : String)
deriving DecidableEq, Repr

/-- The `port` member of `credentialsSchema`:
`z.union([z.number().int().positive(...), z.string().min(1,...).transform(...)])`.
The transform throws `new Error` on `NaN` or non-positive parses, which
escapes `safeParse` instead of becoming a field issue. -/
def validatePort : PortInput → PortResult
  | .num n => if 0 < n then .ok n else .issue "Porta deve ser um numero positivo"
  | .str s =>
      if s.length == 0 then .issue "Porta e obrigatoria"
      else
        match parseIntDec s with
        | none => .thrown "Porta deve ser um numero positivo"
        | some n => if n ≤ 0 then .thrown "Porta deve ser um numero positivo" else .ok n

/-- A POST body of the shape the schema describes: the string fields typed,
`port` either numeric or string, `password` optional. -/
structure RequestBody where
  host : String
  port : PortInput
  databaseName : String
  username : String
  password : Option String
deriving DecidableEq, Repr

/-- Outcome of `credentialsSchema.safeParse`: success with the parsed input,
failure with the itemized field issues, or an exception escaping `safeParse`. -/
inductive ParseOutcome
  | ok (data : ZeusCredentialsInput)
  | invalid (errs : List String)
  | thrown (msg : String)
deriving DecidableEq, Repr

/-- Issue produced by a `z.string().min(1, msg)` field. -/
def fieldErr (s : String) (msg : String) : List String :=
  if s.length == 0 then [msg] else []

/-- `credentialsSchema.safeParse` on a shaped body: `host`, `databaseName`,
`username` must be non-empty, `port` goes through the union, `password`
always passes (`z.string().optional().or(z.literal(''))`). An exception
thrown by the port transform aborts the whole parse. -/
def safeParseCredentials (b : RequestBody) : ParseOutcome :=
  match validatePort b.port with
  | .thrown m => .thrown m
  | .issue m =>
      .invalid (fieldErr b.host "Host e obrigatorio" ++ [m]
        ++ fieldErr b.databaseName "Nome do banco e obrigatorio"
        ++ fieldErr b.username "Usuario e obrigatorio")
  | .ok n =>
      let errs := fieldErr b.host "Host e obrigatorio"
        ++ fieldErr b.databaseName "Nome do banco e obrigatorio"
        ++ fieldErr b.username "Usuario e obrigatorio"
      if errs.isEmpty then
        .ok { host := b.host, port := n, databaseName := b.databaseName,
              username := b.username, password := b.password }
      else .invalid errs

/-- Response of `ZeusController.getCredentials`. -/
structure GetResponse where
  status : Nat
  success : Bool
  message : Option String
  data : Option (Option RedactedCredentials)
deriving DecidableEq, Repr

/-- Response of `ZeusController.saveCredentials`: its `data` field carries
the raw service result, a `CredentialsZeus` row. -/
structure SaveResponse where
  status : Nat
  success : Bool
  message : String
  errors : Option (List String)
  data : Option CredentialsZeus
deriving DecidableEq, Repr

/-- Response of `ZeusController.deleteCredentials`. -/
structure DeleteResponse where
  status : Nat
  success : Bool
  message : String
deriving DecidableEq, Repr

namespace ZeusController

/-- `ZeusController.getCredentials`: 400 when `req.tenantId` is absent,
otherwise 200 with the redacted credentials (or `null`). -/
def getCredentials (tenantId : Option String) (db : DB) : GetResponse :=
  match tenantId with
  | none =>
      { status := 400, success := false,
        message := some "Tenant nao identificado", data := none }
  | some t =>
      { status := 200, success := true, message := none,
        data := some (ZeusService.getCredentials db t) }

/-- `ZeusController.saveCredentials`: 400 when the tenant is absent, 400 with
itemized errors on a failed validation, 500 when an exception escapes
(caught by the surrounding try/catch), otherwise 200 relaying the raw
upsert result in `data`. Returns the response and the new table state. -/
def saveCredentials (tenantId : Option String) (body : RequestBody) (db : DB) :
    SaveResponse × DB :=
  match tenantId with
  | none =>
      ({ status := 400, success := false, message := "Tenant nao identificado",
         errors := none, data := none }, db)
  | some t =>
      match safeParseCredentials body with
      | .invalid errs =>
          ({ status := 400, success := false, message := "Dados invalidos",
             errors := some errs, data := none }, db)
      | .thrown _ =>
          ({ status := 500, success := false, message := "Erro interno do servidor",
             errors := none, data := none }, db)
      | .ok data =>
          let res := ZeusService.upsertCredentials db t data
          ({ status := 200, success := true, message := "Credenciais salvas com sucesso",
             errors := none, data := some res.1 }, res.2)

/-- `ZeusController.deleteCredentials`: 400 when the tenant is absent,
otherwise 200 after the (never-failing) `deleteMany`. -/
def deleteCredentials (tenantId : Option String) (db : DB) : DeleteResponse × DB :=
  match tenantId with
  | none =>
      ({ status := 400, success := false, message := "Tenant nao identificado" }, db)
  | some t =>
      ({ status := 200, success := true, message := "Credenciais removidas com sucesso" },
       ZeusService.deleteCredentials db t)

end ZeusController

/-- The frontend `settingsSchema` bound on `zeusPort`:
`z.coerce.number().min(1).max(65535)` on a supplied numeric value. -/
def settingsZeusPortValid (p : Int) : Bool :=
  decide (1 ≤ p) && decide (p ≤ 65535)

/-- Number of rows a tenant owns in the table. -/
def countKey (db : DB) (t : String) : Nat :=
  (db.filter (keyIs t)).length

/-! ### Lemmas about the table primitives -/

theorem keyIs_true {t : String} {r : CredentialsZeus} (h : r.tenantId = t) :
    keyIs t r = true := by
  simp [keyIs, h]

theorem keyIs_false {t : String} {r : CredentialsZeus} (h : r.tenantId ≠ t) :
    keyIs t r = false := by
  simp [keyIs]
  exact h

theorem findUnique_deleteMany_self (db : DB) (t : String) :
    findUnique (deleteMany db t) t = none := by
  simp only [findUnique, deleteMany, List.find?_filter, List.find?_eq_none]
  intro x hx
  simp

theorem findUnique_deleteMany_ne (db : DB) (t s : String) (h : t ≠ s) :
    findUnique (deleteMany db t) s = findUnique db s := by
  simp only [findUnique, deleteMany, List.find?_filter]
  congr 1
  funext r
  by_cases hs : r.tenantId = s
  · have ht : r.tenantId ≠ t := by
      rw [hs]
      intro hc
      exact h hc.symm
    simp [keyIs_true hs, keyIs_false ht]
  · simp [keyIs_false hs]

theorem deleteMany_idem (db : DB) (t : String) :
    deleteMany (deleteMany db t) t = deleteMany db t := by
  simp [deleteMany, List.filter_filter]

theorem keyIs_updateStep {t s : String} (f : CredentialsZeus → CredentialsZeus)
    (hf : ∀ r, r.tenantId = t → (f r).tenantId = t) (r : CredentialsZeus) :
    keyIs s (if keyIs t r then f r else r) = keyIs s r := by
  by_cases hr : r.tenantId = t
  · have hfr : (f r).tenantId = r.tenantId := by rw [hf r hr, hr]
    have hred : (if keyIs t r then f r else r) = f r := by
      rw [keyIs_true hr]
      simp
    rw [hred]
    simp [keyIs, hfr]
  · have hred : (if keyIs t r then f r else r) = r := by
      rw [keyIs_false hr]
      simp
    rw [hred]

theorem findUnique_updateRow_self (db : DB) (t : String)
    (f : CredentialsZeus → CredentialsZeus)
    (hf : ∀ r, r.tenantId = t → (f r).tenantId = t) :
    findUnique (updateRow t f db) t = (findUnique db t).map f := by
  simp only [findUnique, updateRow, List.find?_map]
  have hpred : (keyIs t ∘ fun r => if keyIs t r then f r else r) = keyIs t := by
    funext r
    simpa [Function.comp] using keyIs_updateStep f hf r
  rw [hpred]
  cases hfind : List.find? (keyIs t) db with
  | none => simp
  | some r =>
      have hr : keyIs t r = true := List.find?_some hfind
      have hrt : r.tenantId = t := by simpa [keyIs] using hr
      simp [keyIs_true hrt]

theorem findUnique_updateRow_ne (db : DB) (t s : String)
    (f : CredentialsZeus → CredentialsZeus)
    (hf : ∀ r, r.tenantId = t → (f r).tenantId = t) (h : t ≠ s) :
    findUnique (updateRow t f db) s = findUnique db s := by
  simp only [findUnique, updateRow, List.find?_map]
  have hpred : (keyIs s ∘ fun r => if keyIs t r then f r else r) = keyIs s := by
    funext r
    simpa [Function.comp] using keyIs_updateStep f hf r
  rw [hpred]
  cases hfind : List.find? (keyIs s) db with
  | none => simp
  | some r =>
      have hr : keyIs s r = true := List.find?_some hfind
      have hrs : r.tenantId = s := by simpa [keyIs] using hr
      have hrt : r.tenantId ≠ t := by
        rw [hrs]
        intro hc
        exact h hc.symm
      simp [keyIs_false hrt]

theorem findUnique_append_single (db : DB) (row : CredentialsZeus) (s : String) :
    findUnique (db ++ [row]) s =
      (findUnique db s).or (if keyIs s row then some row else none) := by
  simp only [findUnique, List.find?_append]
  congr 1
  by_cases h : row.tenantId = s
  · simp [List.find?, keyIs_true h]
  · simp [List.find?, keyIs_false h]

theorem findUnique_filter_self (db : DB) (t : String) :
    findUnique (db.filter (keyIs t)) t = findUnique db t := by
  simp only [findUnique, List.find?_filter]
  congr 1
  funext r
  by_cases h : r.tenantId = t
  · simp [keyIs_true h]
  · simp [keyIs_false h]

theorem countKey_eq_zero_iff (db : DB) (t : String) :
    countKey db t = 0 ↔ findUnique db t = none := by
  simp only [countKey, findUnique, List.length_eq_zero, List.filter_eq_nil_iff,
    List.find?_eq_none]

theorem countKey_updateRow (db : DB) (t s : String)
    (f : CredentialsZeus → CredentialsZeus)
    (hf : ∀ r, r.tenantId = t → (f r).tenantId = t) :
    countKey (updateRow t f db) s = countKey db s := by
  simp only [countKey, updateRow, List.filter_map, List.length_map]
  have hpred : (keyIs s ∘ fun r => if keyIs t r then f r else r) = keyIs s := by
    funext r
    simpa [Function.comp] using keyIs_updateStep f hf r
  rw [hpred]

theorem countKey_append_single (db : DB) (row : CredentialsZeus) (s : String) :
    countKey (db ++ [row]) s = countKey db s + (if keyIs s row then 1 else 0) := by
  by_cases h : keyIs s row
  · simp [countKey, List.filter_append, List.filter_cons, h]
  · simp only [countKey, List.filter_append, List.filter_cons, h, Bool.false_eq_true,
      if_false, List.filter_nil, List.append_nil, Nat.add_zero]

/-! ### Lemmas about the upsert operation -/

theorem findUnique_upsert_self (db : DB) (t : String) (data : ZeusCredentialsInput) :
    findUnique ((ZeusService.upsertCredentials db t data).2) t =
      some ((ZeusService.upsertCredentials db t data).1) := by
  simp only [ZeusService.upsertCredentials, prismaUpsert]
  cases h : findUnique db t with
  | some r =>
      simp only [h]
      rw [findUnique_updateRow_self db t _ (fun r' _ => rfl), h]
      rfl
  | none =>
      simp only [h]
      rw [findUnique_append_single, h]
      have hk : keyIs t (createRow (buildUpsertData t data) (data.password.getD "")) = true :=
        keyIs_true rfl
      simp [hk]

theorem findUnique_upsert_ne (db : DB) (a b : String) (data : ZeusCredentialsInput)
    (hab : a ≠ b) :
    findUnique ((ZeusService.upsertCredentials db a data).2) b = findUnique db b := by
  simp only [ZeusService.upsertCredentials, prismaUpsert]
  cases h : findUnique db a with
  | some r =>
      simp only [h]
      exact findUnique_updateRow_ne db a b _ (fun r' _ => rfl) hab
  | none =>
      simp only [h]
      rw [findUnique_append_single]
      have hk : keyIs b (createRow (buildUpsertData a data) (data.password.getD "")) = false :=
        keyIs_false hab
      simp [hk]

theorem buildUpsertData_password_provided (t : String) (data : ZeusCredentialsInput)
    (s : String) (hs : data.password = some s) (hlen : 0 < s.length) :
    buildUpsertData t data =
      { host := data.host, port := data.port, databaseName := data.databaseName,
        username := data.username, tenantId := t, password := some s } := by
  have hpp : passwordProvided data = true := by simp [passwordProvided, hs, hlen]
  simp [buildUpsertData, hpp, hs]

theorem upsert_fst_provided (db : DB) (t : String) (data : ZeusCredentialsInput)
    (s : String) (hs : data.password = some s) (hlen : 0 < s.length) :
    (ZeusService.upsertCredentials db t data).1 =
      { tenantId := t, host := data.host, port := data.port,
        databaseName := data.databaseName, username := data.username, password := s } := by
  simp only [ZeusService.upsertCredentials,
    buildUpsertData_password_provided t data s hs hlen, prismaUpsert]
  cases h : findUnique db t with
  | some r => simp [h, applyUpdate]
  | none => simp [h, createRow, hs]

theorem buildUpsertData_password_absent (t : String) (data : ZeusCredentialsInput)
    (hs : data.password = none ∨ data.password = some "") :
    buildUpsertData t data =
      { host := data.host, port := data.port, databaseName := data.databaseName,
        username := data.username, tenantId := t, password := none } := by
  have hpp : passwordProvided data = false := by
    rcases hs with hs | hs <;> simp [passwordProvided, hs]
  simp [buildUpsertData, hpp]

/-! ### Test fixtures -/

/-- The POST body of the end-to-end test in the spec. -/
def sampleBody : RequestBody :=
  { host := "10.0.0.1", port := .num 3050, databaseName := "DB.FDB",
    username := "SYSDBA", password := some "pw" }

/-- The parsed form of `sampleBody`. -/
def sampleInput : ZeusCredentialsInput :=
  { host := "10.0.0.1", port := 3050, databaseName := "DB.FDB",
    username := "SYSDBA", password := some "pw" }

/-- A stored row with a non-empty password. -/
def sampleRowSecret : CredentialsZeus :=
  { tenantId := "t1", host := "h0", port := 1, databaseName := "d0",
    username := "u0", password := "secret" }

/-- An upsert input carrying no password. -/
def sampleNoPwInput : ZeusCredentialsInput :=
  { host := "h", port := 5432, databaseName := "d", username := "u", password := none }

/-- A valid body whose port is a numeric payload. -/
def bodyPortNum (p : Int) : RequestBody :=
  { host := "10.0.0.1", port := .num p, databaseName := "DB.FDB",
    username := "SYSDBA", password := some "pw" }

/-- A valid body whose port is a string payload. -/
def bodyPortStr (s : String) : RequestBody :=
  { host := "h", port := .str s, databaseName := "d", username := "u",
    password := some "pw" }

/-- A string has positive length exactly when it is not the empty string. -/
theorem stringLengthPos (s : String) : 0 < s.length ↔ s ≠ "" := by
  cases s with
  | mk data =>
      cases data with
      | nil => simp
      | cons c cs =>
          have h1 : ({ data := c :: cs } : String) ≠ "" := by
            intro h
            have h2 := congrArg String.data h
            simp at h2
          simp [h1]

/-! ### Claims -/

/-- Claim C1: the claim demands that the raw stored password never be present
in any credential object relayed to a client, in particular in the `data`
field of the POST /credentials success response. The code violates this:
`ZeusController.saveCredentials` relays the raw result of
`ZeusService.upsertCredentials` without applying the read-side redaction, so
the response `data` carries the stored row with its raw password `pw`. -/
theorem C1_save_relays_raw_password :
    ((ZeusController.saveCredentials (some "t1") sampleBody []).1).data =
      some { tenantId := "t1", host := "10.0.0.1", port := 3050,
             databaseName := "DB.FDB", username := "SYSDBA", password := "pw" } := by
  decide

/-- Claim C2: the credential read returns `none` exactly when no row exists
for the tenant, and otherwise returns the stored fields without the raw
password, augmented with `hasPassword`, true iff the stored password is a
non-empty string; the output is an object of a password-free shape. -/
theorem C2_read_redacts (db : DB) (t : String) :
    (ZeusService.getCredentials db t = none ↔ findUnique db t = none) ∧
    (∀ r : CredentialsZeus, findUnique db t = some r →
      ZeusService.getCredentials db t =
        some { tenantId := r.tenantId, host := r.host, port := r.port,
               databaseName := r.databaseName, username := r.username,
               hasPassword := decide (0 < r.password.length) } ∧
      ∀ out : RedactedCredentials, ZeusService.getCredentials db t = some out →
        (out.hasPassword = true ↔ r.password ≠ "")) := by
  constructor
  · simp [ZeusService.getCredentials]
  · intro r hr
    constructor
    · simp [ZeusService.getCredentials, hr, redact]
    · intro out hout
      have hro : redact r = out := by
        simpa [ZeusService.getCredentials, hr] using hout
      rw [← hro]
      simp [redact, stringLengthPos]

/-- Witness for C2 at a concrete one-row table. -/
theorem C2_read_redacts_witness :
    ZeusService.getCredentials [sampleRowSecret] "t1" =
      some { tenantId := sampleRowSecret.tenantId, host := sampleRowSecret.host,
             port := sampleRowSecret.port, databaseName := sampleRowSecret.databaseName,
             username := sampleRowSecret.username,
             hasPassword := decide (0 < sampleRowSecret.password.length) } :=
  ((C2_read_redacts [sampleRowSecret] "t1").2 sampleRowSecret (by decide)).1

/-- Claim C3: for a tenant that already owns a row with a non-empty password,
an upsert whose input omits the password (or supplies the empty string)
updates host, port, databaseName and username but keeps the stored password,
so a subsequent read still reports `hasPassword: true`. -/
theorem C3_password_preserved (db : DB) (t : String) (r : CredentialsZeus)
    (data : ZeusCredentialsInput)
    (hfound : findUnique db t = some r)
    (hnopw : data.password = none ∨ data.password = some "")
    (hne : r.password ≠ "") :
    findUnique ((ZeusService.upsertCredentials db t data).2) t =
      some { tenantId := t, host := data.host, port := data.port,
             databaseName := data.databaseName, username := data.username,
             password := r.password } ∧
    ZeusService.getCredentials ((ZeusService.upsertCredentials db t data).2) t =
      some { tenantId := t, host := data.host, port := data.port,
             databaseName := data.databaseName, username := data.username,
             hasPassword := true } := by
  have hrow : findUnique ((ZeusService.upsertCredentials db t data).2) t =
      some { tenantId := t, host := data.host, port := data.port,
             databaseName := data.databaseName, username := data.username,
             password := r.password } := by
    rw [findUnique_upsert_self db t data]
    simp only [ZeusService.upsertCredentials,
      buildUpsertData_password_absent t data hnopw, prismaUpsert, hfound]
    simp [applyUpdate]
  refine ⟨hrow, ?_⟩
  have hpos : 0 < r.password.length := (stringLengthPos r.password).mpr hne
  simp [ZeusService.getCredentials, hrow, redact, hpos]

/-- Witness for C3: a no-password update over a stored secret. -/
theorem C3_password_preserved_witness :
    findUnique ((ZeusService.upsertCredentials [sampleRowSecret] "t1" sampleNoPwInput).2) "t1" =
      some { tenantId := "t1", host := "h", port := 5432, databaseName := "d",
             username := "u", password := "secret" } ∧
    ZeusService.getCredentials
        ((ZeusService.upsertCredentials [sampleRowSecret] "t1" sampleNoPwInput).2) "t1" =
      some { tenantId := "t1", host := "h", port := 5432, databaseName := "d",
             username := "u", hasPassword := true } :=
  C3_password_preserved [sampleRowSecret] "t1" sampleRowSecret sampleNoPwInput
    (by decide) (Or.inl rfl) (by decide)

/-- Claim C5: the delete operation succeeds whether or not a record exists,
two consecutive deletes for the same tenant both return success, and a read
after a delete returns `null`. -/
theorem C5_delete_idempotent (db : DB) (t : String) :
    (ZeusController.deleteCredentials (some t) db).1 =
      { status := 200, success := true, message := "Credenciais removidas com sucesso" } ∧
    (ZeusController.deleteCredentials (some t)
        ((ZeusController.deleteCredentials (some t) db).2)).1 =
      { status := 200, success := true, message := "Credenciais removidas com sucesso" } ∧
    ZeusService.getCredentials ((ZeusController.deleteCredentials (some t) db).2) t = none ∧
    (ZeusController.deleteCredentials (some t)
        ((ZeusController.deleteCredentials (some t) db).2)).2 =
      (ZeusController.deleteCredentials (some t) db).2 := by
  refine ⟨rfl, rfl, ?_, ?_⟩
  · show (findUnique (deleteMany db t) t).map redact = none
    rw [findUnique_deleteMany_self]
    rfl
  · show deleteMany (deleteMany db t) t = deleteMany db t
    exact deleteMany_idem db t

/-- Claim C7: each of the three handlers answers a request without a resolved
tenant identifier with an HTTP 400 failure envelope and leaves the stored
table untouched. -/
theorem C7_missing_tenant_rejected (db : DB) (body : RequestBody) :
    ZeusController.getCredentials none db =
      { status := 400, success := false,
        message := some "Tenant nao identificado", data := none } ∧
    (ZeusController.saveCredentials none body db).1 =
      { status := 400, success := false, message := "Tenant nao identificado",
        errors := none, data := none } ∧
    (ZeusController.saveCredentials none body db).2 = db ∧
    (ZeusController.deleteCredentials none db).1 =
      { status := 400, success := false, message := "Tenant nao identificado" } ∧
    (ZeusController.deleteCredentials none db).2 = db :=
  ⟨rfl, rfl, rfl, rfl, rfl⟩

/-- Claim C4: the claim states that a numeric-string port such as the string
5432 is accepted and stored as the integer 5432, while the strings -1 and abc
(and any non-positive or non-numeric port) are rejected with an HTTP 400 and
an itemized field-error list. The code accepts the string 5432 and rejects a
non-positive numeric port with a 400 and field errors, but for the failing
string ports the zod transform throws, the exception escapes `safeParse`, and
the catch-all answers 500 with a generic message and no error list. -/
theorem C4_port_validation_behavior :
    (ZeusController.saveCredentials (some "t1") (bodyPortStr "5432") []).1.status = 200 ∧
    (ZeusController.saveCredentials (some "t1") (bodyPortStr "5432") []).2 =
      [{ tenantId := "t1", host := "h", port := 5432, databaseName := "d",
         username := "u", password := "pw" }] ∧
    (ZeusController.saveCredentials (some "t1") (bodyPortStr "-1") []).1 =
      { status := 500, success := false, message := "Erro interno do servidor",
        errors := none, data := none } ∧
    (ZeusController.saveCredentials (some "t1") (bodyPortStr "abc") []).1 =
      { status := 500, success := false, message := "Erro interno do servidor",
        errors := none, data := none } ∧
    (ZeusController.saveCredentials (some "t1") (bodyPortNum (-1)) []).1 =
      { status := 400, success := false, message := "Dados invalidos",
        errors := some ["Porta deve ser um numero positivo"], data := none } := by
  decide

/-- Claim C6: when every tenant owns at most one row, an upsert keeps that
invariant; the tenant ends with exactly one row; a save with no prior row
appends exactly one row (created via the `create` clause, whose password
defaults to the empty string when none is supplied); a save over an existing
row rewrites it in place without changing the table size. -/
theorem C6_upsert_single_row (db : DB) (t : String) (data : ZeusCredentialsInput)
    (hinv : ∀ s, countKey db s ≤ 1) :
    (∀ s, countKey ((ZeusService.upsertCredentials db t data).2) s ≤ 1) ∧
    countKey ((ZeusService.upsertCredentials db t data).2) t = 1 ∧
    (findUnique db t = none →
      ((ZeusService.upsertCredentials db t data).2).length = db.length + 1 ∧
      findUnique ((ZeusService.upsertCredentials db t data).2) t =
        some (createRow (buildUpsertData t data) (data.password.getD "")) ∧
      (data.password = none →
        ((ZeusService.upsertCredentials db t data).1).password = "")) ∧
    (∀ r, findUnique db t = some r →
      ((ZeusService.upsertCredentials db t data).2).length = db.length ∧
      findUnique ((ZeusService.upsertCredentials db t data).2) t =
        some (applyUpdate (buildUpsertData t data) r)) := by
  cases h : findUnique db t with
  | none =>
      have hc0 : countKey db t = 0 := (countKey_eq_zero_iff db t).mpr h
      refine ⟨?_, ?_, ?_, ?_⟩
      · intro s
        simp only [ZeusService.upsertCredentials, prismaUpsert, h]
        rw [countKey_append_single]
        by_cases hk : keyIs s (createRow (buildUpsertData t data) (data.password.getD ""))
        · have hts : t = s := by simpa [keyIs, createRow, buildUpsertData] using hk
          subst hts
          simp [hk, hc0]
        · have hk0 : keyIs s (createRow (buildUpsertData t data) (data.password.getD "")) = false := by
            simpa using hk
          simp only [hk0, Bool.false_eq_true, if_false, Nat.add_zero]
          exact hinv s
      · simp only [ZeusService.upsertCredentials, prismaUpsert, h]
        rw [countKey_append_single, hc0]
        have hk : keyIs t (createRow (buildUpsertData t data) (data.password.getD "")) = true :=
          keyIs_true rfl
        simp [hk]
      · intro _
        refine ⟨?_, ?_, ?_⟩
        · simp only [ZeusService.upsertCredentials, prismaUpsert, h]
          simp
        · rw [findUnique_upsert_self]
          simp only [ZeusService.upsertCredentials, prismaUpsert, h]
        · intro hpw
          simp only [ZeusService.upsertCredentials, prismaUpsert, h]
          simp [createRow, hpw]
      · intro r hr
        cases hr
  | some r0 =>
      have hc1 : countKey db t = 1 := by
        have hne : countKey db t ≠ 0 := by
          rw [Ne, countKey_eq_zero_iff, h]
          simp
        have hle := hinv t
        omega
      refine ⟨?_, ?_, ?_, ?_⟩
      · intro s
        simp only [ZeusService.upsertCredentials, prismaUpsert, h]
        rw [countKey_updateRow db t s _ (fun r' _ => rfl)]
        exact hinv s
      · simp only [ZeusService.upsertCredentials, prismaUpsert, h]
        rw [countKey_updateRow db t t _ (fun r' _ => rfl)]
        exact hc1
      · intro hnone
        cases hnone
      · intro r hr
        injection hr with hr
        subst hr
        refine ⟨?_, ?_⟩
        · simp only [ZeusService.upsertCredentials, prismaUpsert, h, updateRow]
          simp
        · rw [findUnique_upsert_self]
          simp only [ZeusService.upsertCredentials, prismaUpsert, h]

/-- Witness for C6 on the empty table. -/
theorem C6_upsert_single_row_witness :
    countKey ((ZeusService.upsertCredentials [] "t1" sampleInput).2) "t1" = 1 :=
  (C6_upsert_single_row [] "t1" sampleInput (fun s => by simp [countKey])).2.1

/-- Claim C8: end-to-end round trip for any tenant and any starting table: a
successful POST of the sample body followed by a GET returns the redacted
record with `hasPassword: true` and no password field; a DELETE followed by a
GET returns `data: null`. -/
theorem C8_round_trip (db : DB) (t : String) :
    (ZeusController.saveCredentials (some t) sampleBody db).1.status = 200 ∧
    (ZeusController.saveCredentials (some t) sampleBody db).1.success = true ∧
    ZeusController.getCredentials (some t)
        ((ZeusController.saveCredentials (some t) sampleBody db).2) =
      { status := 200, success := true, message := none,
        data := some (some { tenantId := t, host := "10.0.0.1", port := 3050,
                             databaseName := "DB.FDB", username := "SYSDBA",
                             hasPassword := true }) } ∧
    (ZeusController.deleteCredentials (some t)
        ((ZeusController.saveCredentials (some t) sampleBody db).2)).1.status = 200 ∧
    ZeusController.getCredentials (some t)
        ((ZeusController.deleteCredentials (some t)
          ((ZeusController.saveCredentials (some t) sampleBody db).2)).2) =
      { status := 200, success := true, message := none, data := some none } := by
  have hparse : safeParseCredentials sampleBody = ParseOutcome.ok sampleInput := by decide
  have hfst : (ZeusService.upsertCredentials db t sampleInput).1 =
      { tenantId := t, host := "10.0.0.1", port := 3050, databaseName := "DB.FDB",
        username := "SYSDBA", password := "pw" } :=
    upsert_fst_provided db t sampleInput "pw" rfl (by decide)
  refine ⟨?_, ?_, ?_, ?_, ?_⟩
  · simp only [ZeusController.saveCredentials, hparse]
  · simp only [ZeusController.saveCredentials, hparse]
  · simp only [ZeusController.saveCredentials, hparse, ZeusController.getCredentials,
      ZeusService.getCredentials]
    rw [findUnique_upsert_self, hfst]
    rfl
  · simp only [ZeusController.saveCredentials, hparse, ZeusController.deleteCredentials]
  · simp only [ZeusController.saveCredentials, hparse, ZeusController.getCredentials,
      ZeusController.deleteCredentials, ZeusService.deleteCredentials,
      ZeusService.getCredentials]
    rw [findUnique_deleteMany_self]
    rfl

/-- Claim C9: the server-side validation places no upper bound on the port:
every positive integer port, including values above 65535, passes validation
and is stored as given, while the frontend form schema rejects any port above
65535. -/
theorem C9_no_upper_port_bound (p : Int) (hp : 0 < p) (db : DB) (t : String) :
    (ZeusController.saveCredentials (some t) (bodyPortNum p) db).1.status = 200 ∧
    (ZeusController.saveCredentials (some t) (bodyPortNum p) db).1.success = true ∧
    findUnique ((ZeusController.saveCredentials (some t) (bodyPortNum p) db).2) t =
      some { tenantId := t, host := "10.0.0.1", port := p, databaseName := "DB.FDB",
             username := "SYSDBA", password := "pw" } ∧
    (65535 < p → settingsZeusPortValid p = false) := by
  have h1 : fieldErr "10.0.0.1" "Host e obrigatorio" = [] := rfl
  have h2 : fieldErr "DB.FDB" "Nome do banco e obrigatorio" = [] := rfl
  have h3 : fieldErr "SYSDBA" "Usuario e obrigatorio" = [] := rfl
  have hparse : safeParseCredentials (bodyPortNum p) =
      ParseOutcome.ok { host := "10.0.0.1", port := p, databaseName := "DB.FDB",
                        username := "SYSDBA", password := some "pw" } := by
    simp only [safeParseCredentials, bodyPortNum, validatePort]
    rw [if_pos hp]
    simp [h1, h2, h3]
  refine ⟨?_, ?_, ?_, ?_⟩
  · simp only [ZeusController.saveCredentials, hparse]
  · simp only [ZeusController.saveCredentials, hparse]
  · simp only [ZeusController.saveCredentials, hparse]
    rw [findUnique_upsert_self, upsert_fst_provided db t _ "pw" rfl (by decide)]
  · intro h65
    have hgt : ¬ (p ≤ 65535) := by omega
    simp [settingsZeusPortValid, hgt]

/-- Witness for C9 at port 70000. -/
theorem C9_no_upper_port_bound_witness :
    (ZeusController.saveCredentials (some "t1") (bodyPortNum 70000) []).1.status = 200 ∧
    (ZeusController.saveCredentials (some "t1") (bodyPortNum 70000) []).1.success = true ∧
    findUnique ((ZeusController.saveCredentials (some "t1") (bodyPortNum 70000) []).2) "t1" =
      some { tenantId := "t1", host := "10.0.0.1", port := 70000, databaseName := "DB.FDB",
             username := "SYSDBA", password := "pw" } ∧
    ((65535 : Int) < 70000 → settingsZeusPortValid 70000 = false) :=
  C9_no_upper_port_bound 70000 (by decide) [] "t1"

/-- Claim C10: for distinct tenants a and b, an upsert or delete for a leaves
b's row (or its absence) unchanged, and a read for a tenant depends only on
the rows carrying that tenant's key. -/
theorem C10_tenant_isolation (db : DB) (a b : String) (data : ZeusCredentialsInput)
    (hab : a ≠ b) :
    findUnique ((ZeusService.upsertCredentials db a data).2) b = findUnique db b ∧
    findUnique (ZeusService.deleteCredentials db a) b = findUnique db b ∧
    ZeusService.getCredentials ((ZeusService.upsertCredentials db a data).2) b =
      ZeusService.getCredentials db b ∧
    ZeusService.getCredentials (ZeusService.deleteCredentials db a) b =
      ZeusService.getCredentials db b ∧
    ZeusService.getCredentials db a =
      ZeusService.getCredentials (List.filter (keyIs a) db) a := by
  have h1 := findUnique_upsert_ne db a b data hab
  have h2 : findUnique (ZeusService.deleteCredentials db a) b = findUnique db b :=
    findUnique_deleteMany_ne db a b hab
  refine ⟨h1, h2, ?_, ?_, ?_⟩
  · simp [ZeusService.getCredentials, h1]
  · simp [ZeusService.getCredentials, h2]
  · simp [ZeusService.getCredentials, findUnique_filter_self]

/-- Witness for C10 on a one-row table and the distinct tenants a and b. -/
theorem C10_tenant_isolation_witness :
    findUnique ((ZeusService.upsertCredentials [sampleRowSecret] "a" sampleInput).2) "b" =
      findUnique [sampleRowSecret] "b" ∧
    findUnique (ZeusService.deleteCredentials [sampleRowSecret] "a") "b" =
      findUnique [sampleRowSecret] "b" ∧
    ZeusService.getCredentials
        ((ZeusService.upsertCredentials [sampleRowSecret] "a" sampleInput).2) "b" =
      ZeusService.getCredentials [sampleRowSecret] "b" ∧
    ZeusService.getCredentials (ZeusService.deleteCredentials [sampleRowSecret] "a") "b" =
      ZeusService.getCredentials [sampleRowSecret] "b" ∧
    ZeusService.getCredentials [sampleRowSecret] "a" =
      ZeusService.getCredentials (List.filter (keyIs "a") [sampleRowSecret]) "a" :=
  C10_tenant_isolation [sampleRowSecret] "a" "b" sampleInput (by decide)

end Campanhas
